import Mathlib

/-!
Verification of the session-state and admission-control subsystem of a
room-lighting calculation service.

The development shallowly embeds the Python sources:
  - `api/v1/resource_limits.py`  (cost estimator, admission controller)
  - `api/v1/session_manager.py`  (session store)
  - `api/v1/session_routers.py`  (concurrency gate, speculative admission)

Machine integers are modelled as `ℕ`/`ℤ` (Python integers are unbounded, so
no wraparound is needed); engine time predictions and timestamps are modelled
as `ℚ` (the float constants involved, e.g. `300 * 0.8`, are exactly
representable, and the engine prediction is treated as an opaque value).
Functions that raise are modelled with `Except`, or with an
`Option error × state` pair where the post-call state matters.
-/

namespace Illuminate

/-! Constants from `resource_limits.py` (lines 23-37). -/

def MAX_SESSION_BUDGET : ℕ := 50000000

def MAX_CONCURRENT_SESSIONS : ℕ := 500

def MAX_CONCURRENT_CALCULATIONS : ℕ := 4

def QUEUE_TIMEOUT_SECONDS : ℕ := 30

def CALCULATION_TIMEOUT_SECONDS : ℕ := 300

/-- Time ceiling, in the source `CALCULATION_TIMEOUT_SECONDS * 0.8`.  The
IEEE-double product `300 * 0.8` rounds to exactly `240.0`, so the constant
is written as that exact value; `MAX_CALC_TIME_SECONDS_eq` below proves it
equal to the defining product `300 * (8/10)`. -/
def MAX_CALC_TIME_SECONDS : ℚ := 240

def COST_PER_GRID_POINT : ℕ := 10

def COST_PER_LAMP : ℕ := 50000

def COST_PER_REFLECTANCE_POINT : ℕ := 1

/-! Data model.  A `CalcZone` carries the attributes `estimate_session_cost`
reads (`enabled`, `num_points`, `calctype`, `name`); a `Lamp` carries
`enabled` and its photometric data `ies` (opaque, only presence matters);
a `Room` carries the reflectance manager and the opaque engine time
prediction returned by `estimate_calculation_time()`. -/

structure CalcZone where
  name : Option String
  calctype : String
  enabled : Bool
  num_points : List ℕ
deriving Repr, DecidableEq

structure Lamp where
  enabled : Bool
  ies : Option String
deriving Repr, DecidableEq

structure SurfacePlane where
  num_points : List ℕ
deriving Repr, DecidableEq

structure Surface where
  plane : SurfacePlane
deriving Repr, DecidableEq

structure ReflectanceManager where
  enabled : Bool
  max_num_passes : Option ℕ
  surfaces : List (String × Surface)
deriving Repr, DecidableEq

structure Room where
  ref_manager : ReflectanceManager
  calc_time : ℚ
deriving Repr, DecidableEq

/-- Engine time prediction, `room.estimate_calculation_time()`: delegated to
the external engine, treated as an opaque stored value. -/
def Room.estimate_calculation_time (r : Room) : ℚ := r.calc_time

structure Session where
  room : Room
  lamp_id_map : List (String × Lamp)
  zone_id_map : List (String × CalcZone)
deriving Repr, DecidableEq

/-! Cost estimator, `estimate_session_cost` (resource_limits.py lines 45-133). -/

structure ZoneInfo where
  id : String
  name : String
  type : String
  enabled : Bool
  grid_points : ℕ
  cost : ℕ
deriving Repr, DecidableEq

structure CostEstimate where
  total_grid_points : ℕ
  zones : List ZoneInfo
  lamp_count : ℕ
  reflectance_enabled : Bool
  reflectance_passes : ℕ
  reflectance_grid_points : ℕ
  reflectance_cost : ℕ
  grid_cost : ℕ
  lamp_cost : ℕ
  stored_memory_mb : ℚ
  peak_memory_mb : ℚ
  calc_time_seconds : ℚ
  budget_units : ℕ
deriving Repr, DecidableEq

/-- Python truthiness fallback `x or default` on an optional integer:
`None` and `0` are falsy. Used for `ref_manager.max_num_passes or 5`. -/
def pyOrNat (x : Option ℕ) (default : ℕ) : ℕ :=
  match x with
  | none => default
  | some n => if n = 0 then default else n

/-- Python truthiness fallback on an optional string: `None` and the empty
string are falsy. Used for `getattr(zone, "name", None) or zone_id`. -/
def pyOrStr (x : Option String) (default : String) : String :=
  match x with
  | none => default
  | some s => if s = "" then default else s

/-- One iteration of the zone loop of `estimate_session_cost`: the
`zone_info` dict built for a zone. -/
def zoneInfoOf (zone_id : String) (zone : CalcZone) : ZoneInfo :=
  let points := zone.num_points.prod
  let zone_cost := points * COST_PER_GRID_POINT
  { id := zone_id
    name := pyOrStr zone.name zone_id
    type := zone.calctype.toLower
    enabled := zone.enabled
    grid_points := points
    cost := if zone.enabled then zone_cost else 0 }

/-- The zone loop of `estimate_session_cost` (lines 59-75): builds the
per-zone detail list in map order and accumulates the enabled grid-point
total. -/
def zoneLoop : List (String × CalcZone) → List ZoneInfo × ℕ
  | [] => ([], 0)
  | (zone_id, zone) :: rest =>
    let info := zoneInfoOf zone_id zone
    let tail := zoneLoop rest
    (info :: tail.1, (if zone.enabled then zone.num_points.prod else 0) + tail.2)

def estimate_session_cost (session : Session) : CostEstimate :=
  let zl := zoneLoop session.zone_id_map
  let total_grid_points := zl.2
  let zone_details := List.mergeSort zl.1 (fun a b => a.cost ≥ b.cost)
  let lamp_count :=
    (session.lamp_id_map.filter (fun p => p.2.enabled && p.2.ies.isSome)).length
  let refl := session.room.ref_manager
  let reflectance_enabled := refl.enabled
  let reflectance_passes := if refl.enabled then pyOrNat refl.max_num_passes 5 else 0
  let reflectance_grid_points :=
    if refl.enabled then ((refl.surfaces.map (fun p => p.2.plane.num_points.prod)).sum) else 0
  let reflectance_cost :=
    if refl.enabled then reflectance_grid_points * reflectance_passes * COST_PER_REFLECTANCE_POINT
    else 0
  let grid_cost := total_grid_points * COST_PER_GRID_POINT
  let lamp_cost := lamp_count * COST_PER_LAMP
  let budget_units := grid_cost + lamp_cost + reflectance_cost
  let stored_memory :=
    total_grid_points * 8 + lamp_count * 40000 +
      (if reflectance_enabled then reflectance_grid_points * 8 else 0)
  let peak_memory := stored_memory + total_grid_points * 80
  { total_grid_points := total_grid_points
    zones := zone_details
    lamp_count := lamp_count
    reflectance_enabled := reflectance_enabled
    reflectance_passes := reflectance_passes
    reflectance_grid_points := reflectance_grid_points
    reflectance_cost := reflectance_cost
    grid_cost := grid_cost
    lamp_cost := lamp_cost
    stored_memory_mb := (stored_memory : ℚ) / 1000000
    peak_memory_mb := (peak_memory : ℚ) / 1000000
    calc_time_seconds := session.room.estimate_calculation_time
    budget_units := budget_units }

/-! Admission controller, `check_budget` (lines 200-278).  The raised
`HTTPException` detail is modelled by the decision-relevant fields; the
presentation-only rounded percentages and suggestion strings of the payload
are not inspected by any property verified here. -/

structure BudgetDetail where
  error : String
  message : String
  used : ℤ
  max : ℕ
  time_exceeded : Bool
deriving Repr, DecidableEq

def check_budget (session : Session) (additional_cost : ℤ) : Except BudgetDetail Unit :=
  let estimate := estimate_session_cost session
  let total : ℤ := (estimate.budget_units : ℤ) + additional_cost
  let calc_time := estimate.calc_time_seconds
  let budget_exceeded : Bool := decide (total > (MAX_SESSION_BUDGET : ℤ))
  let time_exceeded : Bool := decide (calc_time > MAX_CALC_TIME_SECONDS)
  if !budget_exceeded && !time_exceeded then
    Except.ok ()
  else
    Except.error
      { error := "budget_exceeded"
        message :=
          if budget_exceeded then "Session exceeds compute budget"
          else "Estimated calculation time exceeds limit"
        used := total
        max := MAX_SESSION_BUDGET
        time_exceeded := time_exceeded }

/-- True when `check_budget` raises. -/
def checkFails (session : Session) (additional_cost : ℤ) : Bool :=
  match check_budget session additional_cost with
  | Except.ok _ => false
  | Except.error _ => true

/-! Session store, `session_manager.py`.  The store-level view of a session
(`Session` dataclass, lines 33-66) carries the identity, credential hash and
timestamps; timestamps and the current clock are explicit `ℚ` values (the
`time.time()` reads are passed in as the `now` argument).  The
`SessionManager._sessions` dict is modelled as an association list with
dict-style lookup/insert (first occurrence wins; insert replaces in place,
new keys append). -/

def SESSION_TIMEOUT_SECONDS : ℚ := 30 * 60

structure MSession where
  id : String
  token_hash : Option String
  created_at : ℚ
  last_accessed : ℚ
deriving Repr, DecidableEq

/-- Credential check `Session.verify_token` (lines 52-56).  The SHA-256 hex
digest is opaque to this subsystem and is passed in as `sha256hex`; a falsy
stored hash (`None` or the empty string) short-circuits to `False`. -/
def MSession.verify_token (sha256hex : String → String) (s : MSession) (token : String) : Bool :=
  match s.token_hash with
  | none => false
  | some h => if h = "" then false else sha256hex token == h

/-- Idle test `Session.is_expired` (lines 48-50): strictly more than
`timeout` seconds since the last access. -/
def MSession.is_expired (s : MSession) (now : ℚ) (timeout : ℚ) : Bool :=
  decide (now - s.last_accessed > timeout)

/-- Update of the last-access timestamp, `Session.touch` (lines 44-46). -/
def MSession.touch (s : MSession) (now : ℚ) : MSession :=
  { s with last_accessed := now }

abbrev Store := List (String × MSession)

def dictLookup {α : Type} (key : String) : List (String × α) → Option α
  | [] => none
  | e :: rest => if e.1 = key then some e.2 else dictLookup key rest

def dictInsert {α : Type} (key : String) (v : α) : List (String × α) → List (String × α)
  | [] => [(key, v)]
  | e :: rest => if e.1 = key then (key, v) :: rest else e :: dictInsert key v rest

inductive StoreError where
  | capacity (limit : ℕ)
deriving Repr, DecidableEq

/-- Idle sweep `SessionManager.cleanup_expired` (lines 112-127): collect the
identifiers of expired sessions, delete each of them from the dict, and
return how many were deleted. -/
def cleanup_expired (now : ℚ) (store : Store) : Store × ℕ :=
  let expired := store.filter (fun e => e.2.is_expired now SESSION_TIMEOUT_SECONDS)
  (store.filter (fun e => !(e.2.is_expired now SESSION_TIMEOUT_SECONDS)), expired.length)

/-- Session creation `SessionManager.create_session` (lines 129-160).  The
freshly generated UUID is passed in as `new_id` (used only when no
`session_id` is supplied).  Rejects with a capacity error when the stored
session count has reached `MAX_CONCURRENT_SESSIONS`. -/
def create_session (now : ℚ) (store : Store) (session_id : Option String)
    (token_hash : Option String) (new_id : String) : Except StoreError (MSession × Store) :=
  if store.length ≥ MAX_CONCURRENT_SESSIONS then
    Except.error (StoreError.capacity MAX_CONCURRENT_SESSIONS)
  else
    let sid := session_id.getD new_id
    let session : MSession :=
      { id := sid, token_hash := token_hash, created_at := now, last_accessed := now }
    Except.ok (session, dictInsert sid session store)

/-- Lookup `SessionManager.get_session` (lines 162-182): a hit touches the
session (the sole place idle time is reset) and returns it; a miss either
auto-creates (propagating the capacity error) or returns `none`. -/
def get_session (now : ℚ) (store : Store) (session_id : String) (auto_create : Bool)
    (new_id : String) : Except StoreError (Option MSession × Store) :=
  match dictLookup session_id store with
  | some s =>
    let touched := s.touch now
    Except.ok (some touched, dictInsert session_id touched store)
  | none =>
    if auto_create then
      match create_session now store (some session_id) none new_id with
      | Except.error e => Except.error e
      | Except.ok (s, st) => Except.ok (some s, st)
    else
      Except.ok (none, store)

/-- Deletion `SessionManager.delete_session` (lines 184-199). -/
def delete_session (store : Store) (session_id : String) : Bool × Store :=
  match dictLookup session_id store with
  | some _ => (true, store.filter (fun e => !(e.1 = session_id : Bool)))
  | none => (false, store)

/-! Concurrency gate, `calculate_session` (session_routers.py lines
2209-2336).  The environment of the handler is reduced to the decisions relevant
to slot accounting: whether a semaphore slot frees up within the queue-wait
window, and how the dispatched engine run terminates.  The trace of
semaphore operations the handler performs is made explicit. -/

inductive RunOutcome where
  | completed
  | execTimeout
  | engineFailure
deriving Repr, DecidableEq

inductive SlotEvent where
  | acquire
  | release
deriving Repr, DecidableEq

inductive CalcResult where
  | budgetRejected
  | queueTimeout
  | execTimedOut
  | engineFailed
  | success
deriving Repr, DecidableEq

/-- Slot accounting of the `/calculate` handler.  `check_budget` runs before
any slot is requested; a queue-wait timeout raises 503 before the acquire
completes; once acquired, the `try/finally` releases the slot on normal
completion, on the 300 s execution timeout (408), and on any engine
exception (`_log_and_raise`) alike. -/
def calculate_session (session : Session) (slot_available : Bool)
    (run : RunOutcome) : CalcResult × List SlotEvent :=
  match check_budget session 0 with
  | Except.error _ => (CalcResult.budgetRejected, [])
  | Except.ok _ =>
    if !slot_available then
      (CalcResult.queueTimeout, [])
    else
      let outcome :=
        match run with
        | RunOutcome.completed => CalcResult.success
        | RunOutcome.execTimeout => CalcResult.execTimedOut
        | RunOutcome.engineFailure => CalcResult.engineFailed
      (outcome, [SlotEvent.acquire, SlotEvent.release])

/-! Speculative admission (session_routers.py).  Handlers that would grow
the model pre-check the budget with the delta of the proposed mutation and
must leave the session untouched when the check raises.  The result type is
the pair (raised error, post-call session state). -/

/-- Zone-addition handler `add_session_zone` (lines 2002-2022).  The helper
`estimate_zone_grid_points` and the zone constructor
`_create_zone_from_input` are imported by the router but their definitions
are not part of these sources; their results (the predicted point count of
the proposed zone, and the constructed zone object) enter as the parameters
`new_zone_points` and `guv_zone`. -/
def add_session_zone (session : Session) (zone_id : String) (new_zone_points : ℕ)
    (guv_zone : CalcZone) : Option BudgetDetail × Session :=
  let new_zone_cost := new_zone_points * COST_PER_GRID_POINT
  match check_budget session (new_zone_cost : ℤ) with
  | Except.error d => (some d, session)
  | Except.ok _ =>
    (none, { session with zone_id_map := dictInsert zone_id guv_zone session.zone_id_map })

/-- Room-update input restricted to the reflectance fields exercised by the
speculative-admission path of `update_session_room`. -/
structure SessionRoomUpdate where
  enable_reflectance : Option Bool
  reflectance_max_num_passes : Option ℕ
deriving Repr, DecidableEq

/-- Mutation part of `update_session_room` (lines 805-812) for the modelled
fields: `room.enable_reflectance(value)` and `room.set_max_num_passes(n)`. -/
def applyRoomUpdates (updates : SessionRoomUpdate) (session : Session) : Session :=
  let s1 :=
    match updates.enable_reflectance with
    | none => session
    | some b =>
      { session with
          room := { session.room with
                      ref_manager := { session.room.ref_manager with enabled := b } } }
  match updates.reflectance_max_num_passes with
  | none => s1
  | some n =>
    { s1 with
        room := { s1.room with
                    ref_manager := { s1.room.ref_manager with max_num_passes := some n } } }

/-- Room-update handler `update_session_room` (lines 771-844, reflectance
fields): when the update would newly enable reflectance, the budget is
checked first with the delta `total_grid_points * 5 *
COST_PER_REFLECTANCE_POINT`, and on failure nothing is applied. -/
def update_session_room (updates : SessionRoomUpdate) (session : Session) :
    Option BudgetDetail × Session :=
  if updates.enable_reflectance = some true ∧ session.room.ref_manager.enabled = false then
    let estimate := estimate_session_cost session
    let reflectance_cost := estimate.total_grid_points * 5 * COST_PER_REFLECTANCE_POINT
    match check_budget session (reflectance_cost : ℤ) with
    | Except.error d => (some d, session)
    | Except.ok _ => (none, applyRoomUpdates updates session)
  else
    (none, applyRoomUpdates updates session)

/-! Spec-side formulations, used to compare the estimator against the
specification text (sums over enabled zones, lamps counted only when enabled
with resolvable photometric data, reflectance surface points). -/

/-- Sum of grid-point counts over the enabled zones only (spec section 8). -/
def sumEnabledZonePoints (s : Session) : ℕ :=
  ((s.zone_id_map.filter (fun p => p.2.enabled)).map (fun p => p.2.num_points.prod)).sum

/-- Number of light sources that are both enabled and have resolvable
photometric data (spec section 4.2). -/
def countedLamps (s : Session) : ℕ :=
  (s.lamp_id_map.filter (fun p => p.2.enabled && p.2.ies.isSome)).length

/-- Total grid points across all reflective surfaces (spec section 4.2). -/
def reflSurfacePoints (r : Room) : ℕ :=
  (r.ref_manager.surfaces.map (fun p => p.2.plane.num_points.prod)).sum

/-! Concrete model states used as witnesses: the two scenario sessions of
spec section 8, an over-budget session, and a slow (time-ceiling) session. -/

def roomOff : Room :=
  { ref_manager := { enabled := false, max_num_passes := some 0, surfaces := [] }
    calc_time := 1 }

def zone55 : CalcZone :=
  { name := some "test", calctype := "Plane", enabled := true, num_points := [5, 5] }

def lampOk : Lamp := { enabled := true, ies := some "iesdata" }

def lampNoIes : Lamp := { enabled := true, ies := none }

/-- Scenario session: one enabled 5x5 zone, one enabled lamp with data,
reflectance disabled. -/
def sSmall : Session :=
  { room := roomOff, lamp_id_map := [("l0", lampOk)], zone_id_map := [("z0", zone55)] }

def roomRefl : Room :=
  { ref_manager :=
      { enabled := true, max_num_passes := some 5
        surfaces := [("floor", { plane := { num_points := [10, 10] } })] }
    calc_time := 1 }

/-- Scenario session: as `sSmall` with reflectance enabled, 5 passes over a
10x10 reflective grid. -/
def sSmallRefl : Session := { sSmall with room := roomRefl }

def roomReflNone : Room :=
  { ref_manager :=
      { enabled := true, max_num_passes := none
        surfaces := [("floor", { plane := { num_points := [10, 10] } })] }
    calc_time := 1 }

/-- Session with reflectance enabled but no explicit pass count set. -/
def sReflNone : Session := { sSmall with room := roomReflNone }

def zoneHuge : CalcZone :=
  { name := some "huge", calctype := "Plane", enabled := true, num_points := [10000000] }

/-- Session whose single zone alone exceeds the unit budget
(10,000,000 points times 10 units). -/
def sOver : Session :=
  { room := roomOff, lamp_id_map := [], zone_id_map := [("big", zoneHuge)] }

def roomSlow : Room :=
  { ref_manager := { enabled := false, max_num_passes := some 0, surfaces := [] }
    calc_time := 500 }

/-- Session whose engine time prediction exceeds the 240 s ceiling. -/
def sSlow : Session := { sSmall with room := roomSlow }

/-- Store-level session fixture. -/
def mSessionAt (sid : String) (t : ℚ) : MSession :=
  { id := sid, token_hash := none, created_at := t, last_accessed := t }

/-- Store holding 500 entries, for exercising the capacity ceiling. -/
def storeFull : Store := List.replicate 500 ("k", mSessionAt "k" 0)

/-- One-session store fixture used in the idle-sweep witness. -/
def storeW : Store := [("a", mSessionAt "a" 0)]

/-- The fixture session after a `get` at time 10. -/
def sW : MSession := { id := "a", token_hash := none, created_at := 0, last_accessed := 10 }

/-- The fixture store after that `get`. -/
def storeW2 : Store := [("a", sW)]

def zoneDisabled : CalcZone :=
  { name := some "off", calctype := "Volume", enabled := false, num_points := [10, 10] }

/-- Session with one enabled and one disabled zone. -/
def sMixed : Session :=
  { room := roomOff, lamp_id_map := [("l0", lampOk)]
    zone_id_map := [("z0", zone55), ("zd", zoneDisabled)] }

/-! Shared helper lemmas. -/

theorem MAX_CALC_TIME_SECONDS_eq :
    MAX_CALC_TIME_SECONDS = (CALCULATION_TIMEOUT_SECONDS : ℚ) * (8 / 10) := by
  norm_num [MAX_CALC_TIME_SECONDS, CALCULATION_TIMEOUT_SECONDS]

theorem estimate_total_grid_points (s : Session) :
    (estimate_session_cost s).total_grid_points = (zoneLoop s.zone_id_map).2 := rfl

theorem estimate_zones (s : Session) :
    (estimate_session_cost s).zones =
      List.mergeSort (zoneLoop s.zone_id_map).1 (fun a b => a.cost ≥ b.cost) := rfl

theorem estimate_lamp_count (s : Session) :
    (estimate_session_cost s).lamp_count = countedLamps s := rfl

theorem estimate_lamp_cost (s : Session) :
    (estimate_session_cost s).lamp_cost = countedLamps s * COST_PER_LAMP := rfl

theorem estimate_calc_time (s : Session) :
    (estimate_session_cost s).calc_time_seconds = s.room.calc_time := rfl

theorem estimate_budget_units (s : Session) :
    (estimate_session_cost s).budget_units =
      (zoneLoop s.zone_id_map).2 * COST_PER_GRID_POINT + countedLamps s * COST_PER_LAMP +
        (if s.room.ref_manager.enabled then
           reflSurfacePoints s.room * pyOrNat s.room.ref_manager.max_num_passes 5 *
             COST_PER_REFLECTANCE_POINT
         else 0) := by
  cases h : s.room.ref_manager.enabled <;>
    simp [estimate_session_cost, countedLamps, reflSurfacePoints, h]

theorem zoneLoop_snd (zs : List (String × CalcZone)) :
    (zoneLoop zs).2 =
      ((zs.filter (fun p => p.2.enabled)).map (fun p => p.2.num_points.prod)).sum := by
  induction zs with
  | nil => rfl
  | cons e rest ih =>
    obtain ⟨zid, z⟩ := e
    cases h : z.enabled <;> simp [zoneLoop, h, ih]

theorem zoneLoop_fst_length (zs : List (String × CalcZone)) :
    (zoneLoop zs).1.length = zs.length := by
  induction zs with
  | nil => rfl
  | cons e rest ih =>
    obtain ⟨zid, z⟩ := e
    simp [zoneLoop, ih]

theorem zoneLoop_fst_mem (zs : List (String × CalcZone)) (a : ZoneInfo) :
    a ∈ (zoneLoop zs).1 ↔ ∃ p ∈ zs, a = zoneInfoOf p.1 p.2 := by
  induction zs with
  | nil => simp [zoneLoop]
  | cons e rest ih =>
    obtain ⟨zid, z⟩ := e
    simp [zoneLoop, ih]

theorem length_filter_split {α : Type} (l : List α) (p : α → Bool) :
    (l.filter (fun a => p a = false)).length + (l.filter (fun a => p a = true)).length
      = l.length := by
  have hT : (fun a => decide (p a = true)) = p := by funext a; cases p a <;> simp
  have hF : (fun a => decide (p a = false)) = (fun a => !(p a)) := by
    funext a; cases p a <;> simp
  calc (l.filter (fun a => p a = false)).length + (l.filter (fun a => p a = true)).length
      = (l.filter (fun a => !(p a))).length + (l.filter p).length := by rw [hT, hF]
    _ = l.length := by
        rw [Nat.add_comm]
        exact (List.length_eq_length_filter_add p).symm

theorem dictLookup_eq_none {α : Type} (k : String) (l : List (String × α))
    (h : k ∉ l.map Prod.fst) : dictLookup k l = none := by
  induction l with
  | nil => rfl
  | cons e rest ih =>
    simp only [List.map_cons, List.mem_cons, not_or] at h
    simp [dictLookup, Ne.symm h.1, ih h.2]

theorem dictLookup_filter_none {α : Type} (k : String) (l : List (String × α))
    (p : String × α → Bool) (h : k ∉ l.map Prod.fst) :
    dictLookup k (l.filter p) = none := by
  refine dictLookup_eq_none k _ (fun hm => h ?_)
  exact List.map_subset Prod.fst (List.filter_sublist l).subset hm

theorem dictLookup_dictInsert {α : Type} (k : String) (v : α) (l : List (String × α)) :
    dictLookup k (dictInsert k v l) = some v := by
  induction l with
  | nil => simp [dictInsert, dictLookup]
  | cons e rest ih =>
    by_cases h : e.1 = k <;> simp [dictInsert, dictLookup, h, ih]

theorem mem_map_fst_dictInsert {α : Type} (a k : String) (v : α) (l : List (String × α)) :
    a ∈ (dictInsert k v l).map Prod.fst ↔ a = k ∨ a ∈ l.map Prod.fst := by
  induction l with
  | nil => simp [dictInsert]
  | cons e rest ih =>
    by_cases h : e.1 = k <;> simp [dictInsert, h, ih] <;> tauto

theorem nodup_map_fst_dictInsert {α : Type} (k : String) (v : α) (l : List (String × α))
    (h : (l.map Prod.fst).Nodup) : ((dictInsert k v l).map Prod.fst).Nodup := by
  induction l with
  | nil => simp [dictInsert]
  | cons e rest ih =>
    simp only [List.map_cons, List.nodup_cons] at h
    by_cases hk : e.1 = k
    · subst hk
      simpa [dictInsert] using h
    · simp only [dictInsert, hk, if_false, List.map_cons, List.nodup_cons]
      rw [mem_map_fst_dictInsert]
      exact ⟨fun hc => hc.elim hk h.1, ih h.2⟩

theorem dictLookup_cleanup (now : ℚ) (st : Store) (sid : String) (s : MSession)
    (hnd : (st.map Prod.fst).Nodup) (hl : dictLookup sid st = some s) :
    dictLookup sid (cleanup_expired now st).1 =
      if now - s.last_accessed > SESSION_TIMEOUT_SECONDS then none else some s := by
  induction st with
  | nil => simp [dictLookup] at hl
  | cons e rest ih =>
    obtain ⟨k, v⟩ := e
    simp only [List.map_cons, List.nodup_cons] at hnd
    by_cases hk : k = sid
    · subst hk
      have hv : v = s := by simpa [dictLookup] using hl
      subst hv
      by_cases hexp : now - v.last_accessed > SESSION_TIMEOUT_SECONDS
      · simp [cleanup_expired, List.filter_cons, MSession.is_expired, hexp,
          dictLookup_filter_none k rest _ hnd.1]
      · simp [cleanup_expired, List.filter_cons, MSession.is_expired, hexp, dictLookup]
    · have hl2 : dictLookup sid rest = some s := by simpa [dictLookup, hk] using hl
      have hrec := ih hnd.2 hl2
      by_cases hexp : now - v.last_accessed > SESSION_TIMEOUT_SECONDS
      · simpa [cleanup_expired, List.filter_cons, MSession.is_expired, hexp] using hrec
      · simpa [cleanup_expired, List.filter_cons, MSession.is_expired, hexp, dictLookup, hk]
          using hrec

theorem checkFails_iff (s : Session) (x : ℤ) :
    checkFails s x = true ↔
      (((estimate_session_cost s).budget_units : ℤ) + x > (MAX_SESSION_BUDGET : ℤ)
        ∨ (estimate_session_cost s).calc_time_seconds > MAX_CALC_TIME_SECONDS) := by
  by_cases hb :
      ((estimate_session_cost s).budget_units : ℤ) + x > (MAX_SESSION_BUDGET : ℤ) <;>
    by_cases ht : (estimate_session_cost s).calc_time_seconds > MAX_CALC_TIME_SECONDS <;>
      simp [checkFails, check_budget, hb, ht]

/-! Claim theorems. -/

/-- Claim C1: for every session and every additionalCost x at least 0, the
admission check raises a structured budget-exceeded error if and only if the
budget units plus x exceed the 50,000,000-unit ceiling or the engine time
estimate exceeds the 240 s ceiling (which equals 80 percent of the 300 s
hard execution timeout); when neither ceiling is exceeded it returns
normally. -/
theorem admission_check_ceilings (s : Session) (x : ℤ) (hx : 0 ≤ x) :
    (checkFails s x = true ↔
      (((estimate_session_cost s).budget_units : ℤ) + x > (MAX_SESSION_BUDGET : ℤ)
        ∨ (estimate_session_cost s).calc_time_seconds > MAX_CALC_TIME_SECONDS))
    ∧ (checkFails s x = false → check_budget s x = Except.ok ())
    ∧ (checkFails s x = true →
        ∃ d, check_budget s x = Except.error d ∧ d.error = "budget_exceeded")
    ∧ MAX_SESSION_BUDGET = 50000000
    ∧ MAX_CALC_TIME_SECONDS = 240
    ∧ MAX_CALC_TIME_SECONDS = (CALCULATION_TIMEOUT_SECONDS : ℚ) * (8 / 10) := by
  refine ⟨checkFails_iff s x, ?_, ?_, rfl, rfl, MAX_CALC_TIME_SECONDS_eq⟩
  · intro h
    unfold checkFails at h
    cases hcb : check_budget s x with
    | ok v => cases v; rfl
    | error d => rw [hcb] at h; simp at h
  · intro h
    unfold checkFails at h
    cases hcb : check_budget s x with
    | ok v => rw [hcb] at h; simp at h
    | error d =>
      refine ⟨d, rfl, ?_⟩
      have hcb2 := hcb
      simp only [check_budget] at hcb2
      split at hcb2
      · exact absurd hcb2 (by simp)
      · injection hcb2 with hrec
        rw [← hrec]

/-- Witness for C1 at the time-exceeded session and x = 0. -/
theorem admission_check_ceilings_witness :
    ((0 : ℤ) ≤ 0)
    ∧ (checkFails sSlow 0 = true ↔
        (((estimate_session_cost sSlow).budget_units : ℤ) + 0 > (MAX_SESSION_BUDGET : ℤ)
          ∨ (estimate_session_cost sSlow).calc_time_seconds > MAX_CALC_TIME_SECONDS)) :=
  ⟨le_refl 0, (admission_check_ceilings sSlow 0 (le_refl 0)).1⟩

/-- Claim C2: budget units equal enabled grid points times 10 plus counted
lamps times 50,000 plus, when reflectance is enabled, reflectance grid
points times passes times 1, with passes defaulting to 5 when the model has
not set one; the scenario session yields 50,250 budget units and enabling
reflectance with 5 passes over a 10x10 grid adds exactly 500. -/
theorem budget_units_formula (s : Session) :
    ((estimate_session_cost s).budget_units =
      sumEnabledZonePoints s * COST_PER_GRID_POINT + countedLamps s * COST_PER_LAMP +
        (if s.room.ref_manager.enabled then
           reflSurfacePoints s.room * pyOrNat s.room.ref_manager.max_num_passes 5 *
             COST_PER_REFLECTANCE_POINT
         else 0))
    ∧ (s.room.ref_manager.max_num_passes = none →
        pyOrNat s.room.ref_manager.max_num_passes 5 = 5)
    ∧ COST_PER_GRID_POINT = 10
    ∧ COST_PER_LAMP = 50000
    ∧ COST_PER_REFLECTANCE_POINT = 1
    ∧ (estimate_session_cost sSmall).budget_units = 50250
    ∧ (estimate_session_cost sSmallRefl).budget_units =
        (estimate_session_cost sSmall).budget_units + 500 := by
  refine ⟨?_, ?_, rfl, rfl, rfl, by decide, by decide⟩
  · rw [estimate_budget_units, zoneLoop_snd]
    rfl
  · intro h
    rw [h]
    rfl

/-- Witness for C2 at a session whose model has not set a pass count. -/
theorem budget_units_formula_witness :
    sReflNone.room.ref_manager.max_num_passes = none
    ∧ pyOrNat sReflNone.room.ref_manager.max_num_passes 5 = 5
    ∧ (estimate_session_cost sSmall).budget_units = 50250 :=
  ⟨rfl, (budget_units_formula sReflNone).2.1 rfl,
    (budget_units_formula sSmall).2.2.2.2.2.1⟩

/-- Claim C3: the total grid points of the estimate sum over enabled zones
only, while the per-zone breakdown reports every zone, disabled ones
included with cost 0, so its length is the count of disabled plus enabled
zones. -/
theorem zone_accounting (s : Session) :
    (estimate_session_cost s).total_grid_points = sumEnabledZonePoints s
    ∧ (estimate_session_cost s).zones.length = s.zone_id_map.length
    ∧ (estimate_session_cost s).zones.length =
        (s.zone_id_map.filter (fun p => p.2.enabled = false)).length +
          (s.zone_id_map.filter (fun p => p.2.enabled = true)).length
    ∧ (∀ z ∈ (estimate_session_cost s).zones, z.enabled = false → z.cost = 0) := by
  refine ⟨?_, ?_, ?_, ?_⟩
  · rw [estimate_total_grid_points, zoneLoop_snd]
    rfl
  · rw [estimate_zones]
    simp [List.length_mergeSort, zoneLoop_fst_length]
  · have h2 := length_filter_split s.zone_id_map (fun pr => pr.2.enabled)
    simp only [] at h2
    rw [estimate_zones]
    simp only [List.length_mergeSort, zoneLoop_fst_length]
    omega
  · intro z hz hfalse
    rw [estimate_zones, List.mem_mergeSort, zoneLoop_fst_mem] at hz
    obtain ⟨p, hp, rfl⟩ := hz
    simp [zoneInfoOf] at hfalse ⊢
    simp [hfalse]

/-- Witness for C3 at a session holding one enabled and one disabled zone:
the disabled zone is still reported, with cost 0. -/
theorem zone_accounting_witness :
    zoneInfoOf "zd" zoneDisabled ∈ (estimate_session_cost sMixed).zones
    ∧ (zoneInfoOf "zd" zoneDisabled).enabled = false
    ∧ (zoneInfoOf "zd" zoneDisabled).cost = 0 :=
  by
  have hmem : zoneInfoOf "zd" zoneDisabled ∈ (estimate_session_cost sMixed).zones := by
    rw [estimate_zones, List.mem_mergeSort]
    have e : (zoneLoop sMixed.zone_id_map).1
        = [zoneInfoOf "z0" zone55, zoneInfoOf "zd" zoneDisabled] := rfl
    rw [e]
    exact List.mem_cons_of_mem _ (List.mem_cons_self _ _)
  exact ⟨hmem, by decide, (zone_accounting sMixed).2.2.2 _ hmem (by decide)⟩

/-- Claim C4: a light source contributes 1 to the lamp count (and 50,000
budget units) exactly when it is enabled and has photometric data; a source
without data contributes zero regardless of its enabled flag. -/
theorem lamp_charging (s : Session) (lid : String) (lamp : Lamp)
    (hies : lamp.ies = none) :
    (estimate_session_cost s).lamp_count = countedLamps s
    ∧ (estimate_session_cost s).lamp_cost = countedLamps s * COST_PER_LAMP
    ∧ (estimate_session_cost
          { s with lamp_id_map := (lid, lamp) :: s.lamp_id_map }).lamp_count
        = (estimate_session_cost s).lamp_count
    ∧ (estimate_session_cost
          { s with lamp_id_map := (lid, lamp) :: s.lamp_id_map }).lamp_cost
        = (estimate_session_cost s).lamp_cost
    ∧ (∀ (lid2 : String) (lamp2 : Lamp), lamp2.enabled = true → lamp2.ies.isSome = true →
        (estimate_session_cost
            { s with lamp_id_map := (lid2, lamp2) :: s.lamp_id_map }).lamp_count
          = (estimate_session_cost s).lamp_count + 1) := by
  refine ⟨estimate_lamp_count s, estimate_lamp_cost s, ?_, ?_, ?_⟩
  · simp [estimate_lamp_count, countedLamps, List.filter_cons, hies]
  · simp [estimate_lamp_cost, countedLamps, List.filter_cons, hies]
  · intro lid2 lamp2 hen hsome
    simp [estimate_lamp_count, countedLamps, List.filter_cons, hen, hsome]

/-- Witness for C4: adding a lamp without photometric data leaves the lamp
count unchanged. -/
theorem lamp_charging_witness :
    lampNoIes.ies = none
    ∧ (estimate_session_cost
          { sSmall with lamp_id_map := ("lx", lampNoIes) :: sSmall.lamp_id_map }).lamp_count
        = (estimate_session_cost sSmall).lamp_count :=
  ⟨rfl, (lamp_charging sSmall "lx" lampNoIes rfl).2.2.1⟩

/-- Claim C9: admission is monotonic in additionalCost: for x above 0 the
checked total strictly exceeds the budget units alone, and a session
failing the check at 0 also fails it at x. -/
theorem admission_monotonic (s : Session) (x : ℤ) (hx : 0 < x) :
    ((estimate_session_cost s).budget_units : ℤ) + x
        > ((estimate_session_cost s).budget_units : ℤ)
    ∧ (checkFails s 0 = true → checkFails s x = true) := by
  constructor
  · omega
  · intro h
    rw [checkFails_iff] at h ⊢
    rcases h with h | h
    · left; omega
    · right; exact h

/-- Witness for C9 at the over-budget session and x = 1. -/
theorem admission_monotonic_witness :
    (0 : ℤ) < 1
    ∧ ((estimate_session_cost sOver).budget_units : ℤ) + 1
        > ((estimate_session_cost sOver).budget_units : ℤ)
    ∧ checkFails sOver 1 = true :=
  ⟨by decide, (admission_monotonic sOver 1 (by decide)).1,
    (admission_monotonic sOver 1 (by decide)).2 (by decide)⟩

/-- Claim C10: a session whose stored credential hash is unset (None or
empty) rejects every candidate token: verify_token returns False. -/
theorem verify_token_unset (sha256hex : String → String) (s : MSession) (token : String)
    (h : s.token_hash = none ∨ s.token_hash = some "") :
    MSession.verify_token sha256hex s token = false := by
  rcases h with h | h <;> simp [MSession.verify_token, h]

/-- Witness for C10 at a session with no stored hash. -/
theorem verify_token_unset_witness :
    ((mSessionAt "a" 0).token_hash = none ∨ (mSessionAt "a" 0).token_hash = some "")
    ∧ MSession.verify_token (fun t => t) (mSessionAt "a" 0) "secret" = false :=
  ⟨Or.inl rfl, verify_token_unset (fun t => t) (mSessionAt "a" 0) "secret" (Or.inl rfl)⟩

/-- Claim C5: the concurrency gate never leaks a slot: when the admission
check fails or the queue wait times out no slot is acquired, and once a
slot is acquired it is released on normal completion, execution timeout and
engine failure alike. -/
theorem gate_no_slot_leak (s : Session) (slot_available : Bool) (run : RunOutcome) :
    ((calculate_session s slot_available run).2.count SlotEvent.acquire
      = (calculate_session s slot_available run).2.count SlotEvent.release)
    ∧ (checkFails s 0 = true → (calculate_session s slot_available run).2 = [])
    ∧ (slot_available = false → (calculate_session s slot_available run).2 = [])
    ∧ (checkFails s 0 = false → slot_available = true →
        (calculate_session s slot_available run).2
          = [SlotEvent.acquire, SlotEvent.release]) := by
  cases hcb : check_budget s 0 with
  | error d =>
    cases slot_available <;> cases run <;>
      simp [calculate_session, checkFails, hcb]
  | ok v =>
    cases v
    cases slot_available <;> cases run <;>
      simp [calculate_session, checkFails, hcb, List.count_cons]

/-- Witness for C5: with the admitted session the trace is balanced; with
the over-budget session no slot event occurs. -/
theorem gate_no_slot_leak_witness :
    checkFails sSmall 0 = false
    ∧ (calculate_session sSmall true RunOutcome.completed).2.count SlotEvent.acquire
        = (calculate_session sSmall true RunOutcome.completed).2.count SlotEvent.release
    ∧ (calculate_session sSmall true RunOutcome.completed).2
        = [SlotEvent.acquire, SlotEvent.release]
    ∧ checkFails sOver 0 = true
    ∧ (calculate_session sOver true RunOutcome.completed).2 = [] :=
  ⟨by decide, (gate_no_slot_leak sSmall true RunOutcome.completed).1,
    (gate_no_slot_leak sSmall true RunOutcome.completed).2.2.2 (by decide) rfl,
    by decide,
    (gate_no_slot_leak sOver true RunOutcome.completed).2.1 (by decide)⟩

/-- Claim C6: speculative admission is atomic: when the pre-checked budget
with the mutation delta fails, the zone-addition and room-update handlers
leave the session exactly as it was. -/
theorem speculative_admission_atomic (s : Session) (zone_id : String) (pts : ℕ)
    (z : CalcZone) (u : SessionRoomUpdate) :
    ((add_session_zone s zone_id pts z).1.isSome = true →
        (add_session_zone s zone_id pts z).2 = s)
    ∧ ((add_session_zone s zone_id pts z).1.isSome
        = checkFails s ((pts * COST_PER_GRID_POINT : ℕ) : ℤ))
    ∧ ((update_session_room u s).1.isSome = true → (update_session_room u s).2 = s) := by
  refine ⟨?_, ?_, ?_⟩
  · intro h
    cases hcb : check_budget s ((pts * COST_PER_GRID_POINT : ℕ) : ℤ) with
    | error d =>
      simp only [add_session_zone]
      rw [hcb]
    | ok v =>
      simp only [add_session_zone] at h
      rw [hcb] at h
      simp at h
  · cases hcb : check_budget s ((pts * COST_PER_GRID_POINT : ℕ) : ℤ) with
    | error d =>
      simp only [add_session_zone, checkFails]
      rw [hcb]
      rfl
    | ok v =>
      simp only [add_session_zone, checkFails]
      rw [hcb]
      rfl
  · intro h
    by_cases hc : u.enable_reflectance = some true ∧ s.room.ref_manager.enabled = false
    · simp only [update_session_room] at h ⊢
      rw [if_pos hc] at h ⊢
      cases hcb : check_budget s
          (((estimate_session_cost s).total_grid_points * 5 *
              COST_PER_REFLECTANCE_POINT : ℕ) : ℤ) with
      | error d => rfl
      | ok v =>
        rw [hcb] at h
        simp at h
    · simp only [update_session_room] at h
      rw [if_neg hc] at h
      simp at h

/-- Witness for C6 at the over-budget session: both pre-checked mutations
fail and leave the session unchanged. -/
theorem speculative_admission_atomic_witness :
    (add_session_zone sOver "z1" 0 zone55).2 = sOver
    ∧ (update_session_room
          { enable_reflectance := some true, reflectance_max_num_passes := none }
          sOver).2 = sOver :=
  ⟨(speculative_admission_atomic sOver "z1" 0 zone55
      { enable_reflectance := some true, reflectance_max_num_passes := none }).1 (by decide),
    (speculative_admission_atomic sOver "z1" 0 zone55
      { enable_reflectance := some true, reflectance_max_num_passes := none }).2.2 (by decide)⟩

/-- Claim C7: the sweep removes exactly the sessions idle strictly longer
than the 30-minute threshold and returns the number removed; a successful
get resets the last-access timestamp, so a session touched just before the
threshold survives the next sweep while one idle past the threshold is
absent after it. -/
theorem idle_sweep (now t1 t2 : ℚ) (store store2 : Store) (sid nid : String) (s : MSession)
    (hnd : (store.map Prod.fst).Nodup)
    (hget : get_session t1 store sid false nid = Except.ok (some s, store2)) :
    SESSION_TIMEOUT_SECONDS = 30 * 60
    ∧ (∀ e, e ∈ (cleanup_expired now store).1 ↔
        e ∈ store ∧ now - e.2.last_accessed ≤ SESSION_TIMEOUT_SECONDS)
    ∧ (cleanup_expired now store).2 + (cleanup_expired now store).1.length = store.length
    ∧ s.last_accessed = t1
    ∧ (t2 - t1 ≤ SESSION_TIMEOUT_SECONDS →
        dictLookup sid (cleanup_expired t2 store2).1 = some s)
    ∧ (t2 - t1 > SESSION_TIMEOUT_SECONDS →
        dictLookup sid (cleanup_expired t2 store2).1 = none) := by
  cases hlo : dictLookup sid store with
  | none => simp [get_session, hlo] at hget
  | some s0 =>
    simp only [get_session, hlo] at hget
    rw [Except.ok.injEq, Prod.mk.injEq] at hget
    obtain ⟨h1, h2⟩ := hget
    rw [Option.some.injEq] at h1
    subst h1
    subst h2
    have hnd2 := nodup_map_fst_dictInsert sid (s0.touch t1) store hnd
    have hlc := dictLookup_cleanup t2 (dictInsert sid (s0.touch t1) store) sid (s0.touch t1)
      hnd2 (dictLookup_dictInsert sid (s0.touch t1) store)
    refine ⟨rfl, ?_, ?_, rfl, ?_, ?_⟩
    · intro e
      simp [cleanup_expired, List.mem_filter, MSession.is_expired, not_lt]
    · exact (List.length_eq_length_filter_add
        (fun e : String × MSession => e.2.is_expired now SESSION_TIMEOUT_SECONDS)).symm
    · intro hle
      rw [hlc, if_neg]
      exact not_lt.mpr hle
    · intro hgt
      rw [hlc, if_pos]
      exact hgt

/-- Witness for C7 on a one-session store: a get at time 10 resets the
timestamp; a sweep at time 100 keeps the session, a sweep at time 10000
evicts it. -/
theorem idle_sweep_witness :
    (storeW.map Prod.fst).Nodup
    ∧ get_session 10 storeW "a" false "n" = Except.ok (some sW, storeW2)
    ∧ sW.last_accessed = 10
    ∧ dictLookup "a" (cleanup_expired 100 storeW2).1 = some sW
    ∧ dictLookup "a" (cleanup_expired 10000 storeW2).1 = none := by
  have h1 := idle_sweep 0 10 100 storeW storeW2 "a" "n" sW (by decide) rfl
  have h2 := idle_sweep 0 10 10000 storeW storeW2 "a" "n" sW (by decide) rfl
  exact ⟨by decide, rfl, h1.2.2.2.1, h1.2.2.2.2.1 (by norm_num [SESSION_TIMEOUT_SECONDS]),
    h2.2.2.2.2.2 (by norm_num [SESSION_TIMEOUT_SECONDS])⟩

/-- Claim C8: create fails with a capacity error exactly when the stored
session count (expired entries included) is at least 500, and otherwise
inserts and returns a new session; get with autoCreate on a missing
identifier behaves as create of that identifier, capacity failure
included. -/
theorem session_capacity (now : ℚ) (store : Store) (osid token_hash : Option String)
    (nid sid : String) :
    ((∃ e, create_session now store osid token_hash nid = Except.error e)
        ↔ store.length ≥ MAX_CONCURRENT_SESSIONS)
    ∧ (store.length < MAX_CONCURRENT_SESSIONS →
        create_session now store osid token_hash nid =
          Except.ok
            ({ id := osid.getD nid, token_hash := token_hash
               created_at := now, last_accessed := now },
              dictInsert (osid.getD nid)
                { id := osid.getD nid, token_hash := token_hash
                  created_at := now, last_accessed := now } store))
    ∧ (dictLookup sid store = none → store.length ≥ MAX_CONCURRENT_SESSIONS →
        get_session now store sid true nid
          = Except.error (StoreError.capacity MAX_CONCURRENT_SESSIONS))
    ∧ (dictLookup sid store = none → store.length < MAX_CONCURRENT_SESSIONS →
        get_session now store sid true nid =
          Except.ok
            (some { id := sid, token_hash := none, created_at := now, last_accessed := now },
              dictInsert sid
                { id := sid, token_hash := none, created_at := now, last_accessed := now }
                store))
    ∧ MAX_CONCURRENT_SESSIONS = 500 := by
  refine ⟨⟨?_, ?_⟩, ?_, ?_, ?_, rfl⟩
  · rintro ⟨e, he⟩
    by_cases h : store.length ≥ MAX_CONCURRENT_SESSIONS
    · exact h
    · simp [create_session, h] at he
  · intro h
    exact ⟨StoreError.capacity MAX_CONCURRENT_SESSIONS, by simp [create_session, h]⟩
  · intro h
    simp [create_session, Nat.not_le.mpr h]
  · intro hnone hge
    simp [get_session, hnone, create_session, hge]
  · intro hnone hlt
    simp [get_session, hnone, create_session, Nat.not_le.mpr hlt]

/-- Witness for C8: the full store rejects create and auto-creating get; the
empty store creates and inserts. -/
theorem session_capacity_witness :
    storeFull.length ≥ MAX_CONCURRENT_SESSIONS
    ∧ (∃ e, create_session 0 storeFull (some "x") none "n" = Except.error e)
    ∧ dictLookup "x" storeFull = none
    ∧ get_session 0 storeFull "x" true "n"
        = Except.error (StoreError.capacity MAX_CONCURRENT_SESSIONS)
    ∧ ([] : Store).length < MAX_CONCURRENT_SESSIONS
    ∧ create_session 0 ([] : Store) (some "a") none "n" =
        Except.ok ({ id := "a", token_hash := none, created_at := 0, last_accessed := 0 },
          [("a", { id := "a", token_hash := none, created_at := 0, last_accessed := 0 })]) := by
  have hlen : storeFull.length ≥ MAX_CONCURRENT_SESSIONS := by
    unfold storeFull MAX_CONCURRENT_SESSIONS
    rw [List.length_replicate]
  have hnone : dictLookup "x" storeFull = none := by
    refine dictLookup_eq_none _ _ ?_
    unfold storeFull
    rw [List.map_replicate]
    intro hmem
    rw [List.mem_replicate] at hmem
    exact absurd hmem.2 (by decide)
  refine ⟨hlen, (session_capacity 0 storeFull (some "x") none "n" "x").1.mpr hlen, hnone,
    (session_capacity 0 storeFull (some "x") none "n" "x").2.2.1 hnone hlen,
    by decide, ?_⟩
  have hc := (session_capacity 0 ([] : Store) (some "a") none "n" "a").2.1 (by decide)
  simpa [dictInsert] using hc

end Illuminate
